import Mathlib

/-!
Verification of the srt-processor session supervisor (`src/process_manager.py`,
`src/app.py`) against its natural-language specification.

The Python source is shallowly embedded: each relevant method becomes an
executable Lean definition over explicit state, external effects (subprocess
invocations, `os.stat`, `open`) become explicit inputs describing the outcome
the environment produced, and a Python exception that would propagate out of a
method is modelled with `Except`.
-/

/-- Exceptions that can propagate out of the embedded Python methods. -/
inductive PyErr where
  | fileNotFoundError
  | attributeError
  deriving DecidableEq, Repr

/-- Embedding of a `subprocess.Popen` object as observed by the manager:
`pollResult` is what `poll()` returns (`none` while the process runs, the exit
code once it has exited). -/
structure Popen where
  pollResult : Option Int
  deriving DecidableEq, Repr

/-- State of the base `ProcessManager` class (`src/process_manager.py` lines
11-45): the `process` attribute is `None` until a process is launched. -/
structure ProcessManager where
  process : Option Popen
  deriving DecidableEq, Repr

/-- Observable effect of `ProcessManager.stop_process`. -/
inductive StopEffect where
  | terminated
  | noop
  deriving DecidableEq, Repr

/-- Embedding of `Popen.poll()` as invoked on the `self.process` attribute:
calling it when the attribute is `None` would raise an `AttributeError`. -/
def pyPoll : Option Popen → Except PyErr (Option Int)
  | none => Except.error PyErr.attributeError
  | some p => Except.ok p.pollResult

/-- Embedding of `ProcessManager.check_if_running` (lines 22-32): the
truthiness guard `if self.process:` protects the `poll()` call, and `False`
is returned when no process was ever launched. -/
def check_if_running (m : ProcessManager) : Except PyErr Bool :=
  if m.process.isSome then do
    let r ← pyPoll m.process
    pure r.isNone
  else pure false

/-- Embedding of `ProcessManager.stop_process` (lines 34-45): terminate is
sent only when `self.process` is truthy and `check_if_running()` holds. -/
def stop_process (m : ProcessManager) : Except PyErr StopEffect :=
  if m.process.isSome then do
    let running ← check_if_running m
    if running then pure StopEffect.terminated else pure StopEffect.noop
  else pure StopEffect.noop

/-- Outcome of one `os.stat("./srt/received.ts.stats").st_size` call inside the
monitor: the call either succeeds and reports a size, or raises
`FileNotFoundError` because the external process has not created the file. -/
inductive StatObs where
  | ok (size : Nat)
  | missing
  deriving DecidableEq, Repr

/-- What the monitor thread observes on one loop iteration: the result of
`self.process.poll() is None` and the outcome of the `os.stat` call. -/
structure MonitorObs where
  processAlive : Bool
  stat : StatObs
  deriving DecidableEq, Repr

/-- How the monitor loop of `SrtProcessManager.monitor_connection_status`
ended (or `stillPolling` if the supplied observation prefix did not end it). -/
inductive MonitorExit where
  | connected
  | processExited
  | crashed
  | stillPolling
  deriving DecidableEq, Repr

/-- Embedding of `SrtProcessManager.monitor_connection_status`
(`src/process_manager.py` lines 151-164) run against a finite prefix of
per-iteration observations (one observation per 1-second poll).  The function
returns the final value of `self.connection_established` together with how the
loop ended.  An `os.stat` call on a missing file raises `FileNotFoundError`,
which is not caught anywhere in the method, so the thread dies: this is the
`crashed` exit. -/
def monitor_connection_status : Bool → List MonitorObs → Bool × MonitorExit
  | flag, [] => (flag, MonitorExit.stillPolling)
  | flag, o :: rest =>
    if o.processAlive then
      match o.stat with
      | StatObs.missing => (flag, MonitorExit.crashed)
      | StatObs.ok n =>
        if n ≠ 0 then (true, MonitorExit.connected)
        else monitor_connection_status flag rest
    else (flag, MonitorExit.processExited)

/-- Modelled from the spec: the specification's intended monitor behaviour for
an unreadable statistics artifact — "if the artifact path is unreadable (not
yet created), treat as not yet connected, not as an error — continue polling"
(spec section 4.2).  This definition exists only to exhibit the divergence from
the source's `monitor_connection_status`, which has no handler for the
`os.stat` failure. -/
def monitor_connection_status_specModel : Bool → List MonitorObs → Bool × MonitorExit
  | flag, [] => (flag, MonitorExit.stillPolling)
  | flag, o :: rest =>
    if o.processAlive then
      match o.stat with
      | StatObs.missing => monitor_connection_status_specModel flag rest
      | StatObs.ok n =>
        if n ≠ 0 then (true, MonitorExit.connected)
        else monitor_connection_status_specModel flag rest
    else (flag, MonitorExit.processExited)

/-- Shared per-session state threaded between the background monitor thread
and the foreground countdown loop of `_handle_timeout` (`src/app.py` lines
55-99).  `flag` is `srt_manager.connection_established`; `monitorExited`
records that the monitor thread left its loop (by connecting, by the process
exiting, or by the uncaught `os.stat` exception); `srtConnected` is the local
latch of `_handle_timeout`; `remaining` is its `srt_timeout` variable. -/
structure SessionState where
  flag : Bool
  monitorExited : Bool
  srtConnected : Bool
  remaining : Nat
  deriving DecidableEq, Repr

/-- One poll of the monitor thread (`monitor_connection_status` body) acting
on the shared state: it writes `connection_established` only on the
false-to-true transition; a missing stats file kills the thread without
touching the flag. -/
def monitorStep (o : MonitorObs) (s : SessionState) : SessionState :=
  if s.monitorExited then s
  else if o.processAlive then
    match o.stat with
    | StatObs.missing => { s with monitorExited := true }
    | StatObs.ok n =>
      if n ≠ 0 then { s with flag := true, monitorExited := true }
      else s
  else { s with monitorExited := true }

/-- What one iteration of the `_handle_timeout` while-loop renders: the
remaining-seconds value sent to the `counter` sink and, when the connection is
first observed, the `connected` notification built from
`extract_connected_ip_port`. -/
structure TickRecord where
  shown : Nat
  notified : Option String
  flagAfter : Bool
  deriving DecidableEq, Repr

/-- One iteration of the `_handle_timeout` while-loop (`src/app.py` lines
83-94): render the remaining time, sleep, decrement, then — unless the local
`srt_connected` latch is already set — consult `get_connection_status()` and
on first `true` latch, extract the peer endpoint `e`, and notify once. -/
def controllerTick (e : String) (s : SessionState) : SessionState × Nat × Option String :=
  let shown := s.remaining
  let s1 := { s with remaining := s.remaining - 1 }
  if s1.srtConnected then (s1, shown, none)
  else if s1.flag then ({ s1 with srtConnected := true }, shown, some e)
  else (s1, shown, none)

/-- Interleaved execution of the session: at tick `t` the monitor thread polls
once (observation `env t`) and then the countdown loop performs one iteration.
`fuel` bounds the recursion; it is instantiated with the initial `remaining`,
which the loop decrements by exactly one per iteration, so the while-loop
condition `remaining > 0` is what actually ends the run. -/
def runLoop (env : Nat → MonitorObs) (e : String) : Nat → SessionState → Nat → SessionState × List TickRecord
  | _, s, 0 => (s, [])
  | t, s, fuel + 1 =>
    if s.remaining = 0 then (s, [])
    else
      let s1 := monitorStep (env t) s
      let p := controllerTick e s1
      let rest := runLoop env e (t + 1) p.1 fuel
      (rest.1, { shown := p.2.1, notified := p.2.2, flagAfter := p.1.flag } :: rest.2)

/-- Embedding of `_handle_timeout` (`src/app.py` lines 55-99) for a session of
`timeout` seconds: run the countdown loop from a fresh local latch, then — the
loop having completed naturally — execute the cleanup line 98
`srt_manager.connection_established = False`, an assignment on the very same
(cached) manager instance.  Returns the final shared state and the rendered
trace. -/
def handle_timeout (env : Nat → MonitorObs) (e : String) (timeout : Nat) (flag0 : Bool) :
    SessionState × List TickRecord :=
  let r := runLoop env e 1
    { flag := flag0, monitorExited := false, srtConnected := false, remaining := timeout } timeout
  ({ r.1 with flag := false }, r.2)

/-- Environment of the spec's countdown scenario: the process stays alive and
the statistics artifact becomes non-empty at tick 2, so the monitor flips the
connection flag at tick 2. -/
def env2 : Nat → MonitorObs := fun t =>
  { processAlive := true, stat := if 2 ≤ t then StatObs.ok 1 else StatObs.ok 0 }

/-- One submitted session's configuration, as collected by the sidebar of
`src/app.py` and passed to `SrtProcessManager.start_process`. -/
structure SessionConfig where
  version : String
  mode : String
  port : Nat
  timeout : Nat
  ip : String
  deriving DecidableEq, Repr

/-- State of `SrtProcessManager` (`src/process_manager.py` lines 109-118):
the inherited `process` attribute plus the `connection_established` flag. -/
structure SrtProcessManager where
  process : Option Popen
  connection_established : Bool
  deriving DecidableEq, Repr

/-- Embedding of `SrtProcessManager.__init__` (lines 110-118): the base
constructor leaves `process = None` and the subclass sets
`connection_established = False`. -/
def SrtProcessManager.init : SrtProcessManager :=
  { process := none, connection_established := false }

/-- The shell command line constructed by `SrtProcessManager.start_process`
(lines 136-140). -/
def build_command (c : SessionConfig) : String :=
  "srt-live-transmit-v" ++ c.version ++
  " -fullstats -statspf:csv -stats-report-frequency:100 " ++
  "-statsout:srt/received.ts.stats -loglevel:info -logfile:srt/received.ts.log " ++
  "-to:" ++ toString c.timeout ++ " srt://" ++ c.ip ++ ":" ++ toString c.port ++
  "?mode=" ++ c.mode ++ " file://con > srt/received.ts"

/-- One `subprocess.Popen` spawn performed by `start_process`: the command it
was given and the handle the OS returned. -/
structure SpawnEvent where
  command : String
  handle : Popen
  deriving DecidableEq, Repr

/-- Embedding of `SrtProcessManager.start_process` (lines 120-149): build the
command, spawn exactly one external process (handle `h` supplied by the
environment), store it in `self.process`, and start the monitor thread.  The
method does not write `connection_established`; the list collects the spawn
events the call performs. -/
def SrtProcessManager.start_process (m : SrtProcessManager) (cfg : SessionConfig) (h : Popen) :
    SrtProcessManager × List SpawnEvent :=
  ({ m with process := some h }, [{ command := build_command cfg, handle := h }])

/-- Maximal nonempty run of decimal digits at the head of the character list,
together with the unconsumed remainder; `none` if the head is not a digit.
This is how Python's greedy regex atom matches a run followed by a
non-digit literal. -/
def chompDigits : List Char → Option (List Char × List Char)
  | [] => none
  | c :: cs =>
    if c.isDigit then
      match chompDigits cs with
      | some (d, r) => some (c :: d, r)
      | none => some ([c], cs)
    else none

/-- Consume one expected literal character. -/
def chompChar (c : Char) : List Char → Option (List Char)
  | [] => none
  | x :: xs => if x = c then some xs else none

/-- Attempt to match the regex of `extract_connected_ip_port`
(pattern `(\d+\.\d+\.\d+\.\d+):(\d+)` at line 174) anchored at the head of
`cs`.  On success it returns the two capture groups: the dotted address and
the port digits.  Because the literals `.` and `:` are not digits, the greedy
`\d+` atoms never need to backtrack, so maximal-munch matching is exact. -/
def matchAddrPortAt (cs : List Char) : Option (List Char × List Char) :=
  match chompDigits cs with
  | none => none
  | some (d1, r1) =>
    match chompChar '.' r1 with
    | none => none
    | some r1d =>
      match chompDigits r1d with
      | none => none
      | some (d2, r2) =>
        match chompChar '.' r2 with
        | none => none
        | some r2d =>
          match chompDigits r2d with
          | none => none
          | some (d3, r3) =>
            match chompChar '.' r3 with
            | none => none
            | some r3d =>
              match chompDigits r3d with
              | none => none
              | some (d4, r4) =>
                match chompChar ':' r4 with
                | none => none
                | some r4d =>
                  match chompDigits r4d with
                  | none => none
                  | some (d5, _) =>
                    some (d1 ++ '.' :: d2 ++ '.' :: d3 ++ '.' :: d4, d5)

/-- Embedding of `re.search` for the address:port pattern: try each start
position from the left and return the first (leftmost) match. -/
def searchAddrPort : List Char → Option (List Char × List Char)
  | [] => none
  | c :: cs =>
    match matchAddrPortAt (c :: cs) with
    | some m => some m
    | none => searchAddrPort cs

/-- Property "the log content contains at least one address:port pattern",
stated independently of the search order: some suffix of the content matches
the pattern at its head. -/
def containsAddrPort (cs : List Char) : Bool :=
  (List.range cs.length).any fun i => (matchAddrPortAt (cs.drop i)).isSome

/-- The sentinel error string of `extract_connected_ip_port` (line 183). -/
def sentinel : String := "error: unable to determine connected host"

/-- Embedding of `SrtProcessManager.extract_connected_ip_port`
(`src/process_manager.py` lines 166-183).  The input is the outcome of
`open("./srt/received.ts.log")`: `some content` when the log is readable,
`none` when the file does not exist — in which case `open` raises
`FileNotFoundError`, which the method does not catch. -/
def extract_connected_ip_port : Option String → Except PyErr String
  | none => Except.error PyErr.fileNotFoundError
  | some content =>
    match searchAddrPort content.data with
    | some (ip, port) => Except.ok (String.mk (ip ++ ':' :: port))
    | none => Except.ok sentinel

/-- The slice of the ffprobe JSON document that
`check_for_valid_mpeg_ts` inspects: the optional `"format"` object with its
optional `"format_name"` field (`src/process_manager.py` lines 224-229). -/
structure FfprobeFormat where
  format_name : Option String
  deriving DecidableEq, Repr

/-- Parsed ffprobe output document. -/
structure FfprobeJson where
  format : Option FfprobeFormat
  deriving DecidableEq, Repr

/-- The `"format_name"` value reached through the two `in` checks of the
source, if both keys are present. -/
def FfprobeJson.formatName (j : FfprobeJson) : Option String :=
  match j.format with
  | some f => f.format_name
  | none => none

/-- Outcome of the ffprobe invocation and JSON decoding inside the `try`
block: the `subprocess` call raising `CalledProcessError`, `json.loads`
raising `JSONDecodeError`, or a successfully parsed document. -/
inductive ProbeOutcome where
  | calledProcessError
  | jsonDecodeError
  | parsed (j : FfprobeJson)
  deriving DecidableEq, Repr

/-- Embedding of `SrtProcessManager.check_for_valid_mpeg_ts`
(`src/process_manager.py` lines 194-236): both exception handlers return
`None`; a parsed document yields `True` exactly when
`output["format"]["format_name"] == "mpegts"` and otherwise falls through to
`return False`, including when either key is missing. -/
def check_for_valid_mpeg_ts : ProbeOutcome → Option Bool
  | ProbeOutcome.calledProcessError => none
  | ProbeOutcome.jsonDecodeError => none
  | ProbeOutcome.parsed j =>
    match j.format with
    | some f =>
      match f.format_name with
      | some n => if n = "mpegts" then some true else some false
      | none => some false
    | none => some false

/-- Outcome of one `subprocess.run` invocation of the `tc` utility: the call
either completes (with some exit code — `run` is used without `check=True`,
so a nonzero exit does not raise) or raises `CalledProcessError`, the one
exception the source anticipates. -/
inductive TcCall where
  | completes (exitCode : Int)
  | raisesCalledProcessError
  deriving DecidableEq, Repr

/-- Embedding of `SrtProcessManager.add_network_emulation`
(`src/process_manager.py` lines 280-313): the `try/except` swallows the
anticipated failure and only logs; the returned value is the optional log
message, and the `Except` layer records that no exception escapes. -/
def add_network_emulation (intf : String) (delay : Nat) (call : TcCall) :
    Except PyErr (Option String) :=
  match call with
  | TcCall.completes _ => Except.ok none
  | TcCall.raisesCalledProcessError =>
    Except.ok (some "An error occurred while enabling network emulation")

/-- Embedding of `SrtProcessManager.clear_network_emulation`
(`src/process_manager.py` lines 315-336), with the same failure handling as
`add_network_emulation`. -/
def clear_network_emulation (intf : String) (call : TcCall) :
    Except PyErr (Option String) :=
  match call with
  | TcCall.completes _ => Except.ok none
  | TcCall.raisesCalledProcessError =>
    Except.ok (some "An error occurred while removing network emulation")

/-- A `tc` operation as issued by the session supervisor: clearing the root
netem rule of an interface or adding a delay rule to it. -/
inductive TcEvent where
  | clear (intf : String)
  | add (intf : String) (delay : Nat)
  deriving DecidableEq, Repr

/-- The sequence of `tc` operations performed by `_start_srt_session`
(`src/app.py` lines 136-143): it always clears any pre-existing network
emulation first and only then, when emulation was requested, adds the delay
rule. -/
def start_srt_session_tc (intf : String) (netem : Bool) (delay : Nat) : List TcEvent :=
  TcEvent.clear intf :: (if netem then [TcEvent.add intf delay] else [])

/-- Semantics of one `tc` operation on the per-interface count of active
delay rules.  Following the spec's own model of the primitive ("the
underlying primitive does not reject duplicates", section 4.3), `add`
increments the count and `clear` removes every rule on the interface. -/
def applyTcEvent (rules : String → Nat) : TcEvent → String → Nat
  | TcEvent.clear i => fun j => if j = i then 0 else rules j
  | TcEvent.add i _ => fun j => if j = i then rules j + 1 else rules j

/-- Active-rule counts after a sequence of `tc` operations. -/
def runTcEvents (rules : String → Nat) (evs : List TcEvent) : String → Nat :=
  evs.foldl applyTcEvent rules

/-- Modelled from the spec: `Toolbox.validate_ipv4_address` is called from
`src/app.py` (line 751) but is not defined in the available `src/toolbox.py`;
the spec requires dotted-decimal IPv4 validation that rejects malformed
addresses such as "999.1.1.1" and "abc" (spec sections 7 and 8).  Split on
dots and decode each octet. -/
def splitOnDot : List Char → List (List Char)
  | [] => [[]]
  | c :: cs =>
    let r := splitOnDot cs
    if c = '.' then [] :: r
    else
      match r with
      | [] => [[c]]
      | g :: gs => (c :: g) :: gs

/-- Numeric value of a digit run. -/
def digitsToNat (l : List Char) : Nat :=
  l.foldl (fun a c => 10 * a + (c.toNat - '0'.toNat)) 0

/-- A valid dotted-decimal octet: nonempty, all digits, value at most 255. -/
def validOctet (l : List Char) : Bool :=
  !l.isEmpty && l.all Char.isDigit && decide (digitsToNat l ≤ 255)

/-- Modelled from the spec: the IPv4 validator `Toolbox.validate_ipv4_address`
(missing from the available source; see `splitOnDot`).  A string is valid iff
it consists of exactly four valid dotted-decimal octets. -/
def validate_ipv4_address (s : String) : Bool :=
  let parts := splitOnDot s.data
  parts.length == 4 && parts.all validOctet

/-- The slice of the sidebar state of `src/app.py` that gates submission:
whether the Submit button is disabled and which IP the session would use. -/
structure SidebarResult where
  submit_disabled : Bool
  srt_ip : String
  deriving DecidableEq, Repr

/-- Embedding of the caller-mode IP gating of `src/app.py` lines 739-756:
an empty input or one failing `validate_ipv4_address` forces
`submit_disabled = True` (and an empty `srt_ip`); otherwise the disabled
state keeps its initial value (line 705: whether a session is already
submitted). -/
def caller_ip_gate (prev_submitted : Bool) (listener_ip : String) : SidebarResult :=
  if listener_ip = "" then { submit_disabled := true, srt_ip := "" }
  else if validate_ipv4_address listener_ip = false then { submit_disabled := true, srt_ip := "" }
  else { submit_disabled := prev_submitted, srt_ip := listener_ip }

/-- Whether `_start_srt_session` runs (`src/app.py` lines 808-824): the
session launches only when the Submit button was actually clicked, which a
disabled button can never report. -/
def srt_submitted (form : SidebarResult) (clicked : Bool) : Bool :=
  clicked && !form.submit_disabled

theorem runLoop_zero (env : Nat → MonitorObs) (e : String) (t : Nat) (s : SessionState) :
    runLoop env e t s 0 = (s, []) := rfl

theorem runLoop_succ (env : Nat → MonitorObs) (e : String) (t : Nat) (s : SessionState) (fuel : Nat) :
    runLoop env e t s (fuel + 1) =
      if s.remaining = 0 then (s, [])
      else
        ((runLoop env e (t + 1) (controllerTick e (monitorStep (env t) s)).1 fuel).1,
          { shown := (controllerTick e (monitorStep (env t) s)).2.1,
            notified := (controllerTick e (monitorStep (env t) s)).2.2,
            flagAfter := (controllerTick e (monitorStep (env t) s)).1.flag }
            :: (runLoop env e (t + 1) (controllerTick e (monitorStep (env t) s)).1 fuel).2) := rfl

theorem monitorStep_flag_true (o : MonitorObs) (s : SessionState) (hs : s.flag = true) :
    (monitorStep o s).flag = true := by
  rcases o with ⟨alive, stat⟩
  by_cases hm : s.monitorExited = true
  · simp [monitorStep, hm, hs]
  · cases alive
    · simp [monitorStep, hm, hs]
    · cases stat with
      | missing => simp [monitorStep, hm, hs]
      | ok n => by_cases hn : n = 0 <;> simp [monitorStep, hm, hn, hs]

theorem controllerTick_flag (e : String) (s : SessionState) :
    (controllerTick e s).1.flag = s.flag := by
  by_cases h1 : s.srtConnected = true <;> by_cases h2 : s.flag = true <;>
    simp [controllerTick, h1, h2]

theorem runLoop_flag_true (env : Nat → MonitorObs) (e : String) :
    ∀ (fuel t : Nat) (s : SessionState), s.flag = true →
      ∀ r ∈ (runLoop env e t s fuel).2, r.flagAfter = true := by
  intro fuel
  induction fuel with
  | zero => intro t s _; simp [runLoop_zero]
  | succ n ih =>
    intro t s hs
    rw [runLoop_succ]
    by_cases hr : s.remaining = 0
    · simp [hr]
    · rw [if_neg hr]
      have h2 : (controllerTick e (monitorStep (env t) s)).1.flag = true := by
        rw [controllerTick_flag]; exact monitorStep_flag_true _ _ hs
      intro r hrmem
      rcases List.mem_cons.mp hrmem with h | h
      · rw [h]; exact h2
      · exact ih (t + 1) _ h2 r h

theorem runLoop_pairwise (env : Nat → MonitorObs) (e : String) :
    ∀ (fuel t : Nat) (s : SessionState),
      List.Pairwise (fun a b => a.flagAfter = true → b.flagAfter = true)
        (runLoop env e t s fuel).2 := by
  intro fuel
  induction fuel with
  | zero => intro t s; simp [runLoop_zero]
  | succ n ih =>
    intro t s
    rw [runLoop_succ]
    by_cases hr : s.remaining = 0
    · simp [hr]
    · rw [if_neg hr]
      refine List.Pairwise.cons ?_ (ih (t + 1) _)
      intro b hb hflag
      exact runLoop_flag_true env e n (t + 1) _ hflag b hb

theorem chompDigits_head : ∀ (cs d r : List Char), chompDigits cs = some (d, r) →
    ∃ c t, d = c :: t ∧ c.isDigit = true := by
  intro cs d r h
  cases cs with
  | nil => simp [chompDigits] at h
  | cons c cs =>
    by_cases hc : c.isDigit = true
    · rcases hrec : chompDigits cs with _ | ⟨dd, rr⟩
      · rw [chompDigits, if_pos hc, hrec] at h
        obtain ⟨hd, _⟩ := Prod.ext_iff.mp (Option.some.inj h)
        exact ⟨c, [], hd.symm, hc⟩
      · rw [chompDigits, if_pos hc, hrec] at h
        obtain ⟨hd, _⟩ := Prod.ext_iff.mp (Option.some.inj h)
        exact ⟨c, dd, hd.symm, hc⟩
    · rw [chompDigits, if_neg hc] at h
      cases h

theorem matchAddrPortAt_head : ∀ (cs ip port : List Char),
    matchAddrPortAt cs = some (ip, port) → ∃ c t, ip = c :: t ∧ c.isDigit = true := by
  intro cs ip port h
  unfold matchAddrPortAt at h
  rcases h1 : chompDigits cs with _ | ⟨d1, r1⟩ <;> simp [h1] at h
  rcases h2 : chompChar '.' r1 with _ | r1d <;> simp [h2] at h
  rcases h3 : chompDigits r1d with _ | ⟨d2, r2⟩ <;> simp [h3] at h
  rcases h4 : chompChar '.' r2 with _ | r2d <;> simp [h4] at h
  rcases h5 : chompDigits r2d with _ | ⟨d3, r3⟩ <;> simp [h5] at h
  rcases h6 : chompChar '.' r3 with _ | r3d <;> simp [h6] at h
  rcases h7 : chompDigits r3d with _ | ⟨d4, r4⟩ <;> simp [h7] at h
  rcases h8 : chompChar ':' r4 with _ | r4d <;> simp [h8] at h
  rcases h9 : chompDigits r4d with _ | ⟨d5, r5⟩ <;> simp [h9] at h
  obtain ⟨hip, _⟩ := h
  obtain ⟨c, t, hd, hdig⟩ := chompDigits_head _ _ _ h1
  refine ⟨c, t ++ '.' :: (d2 ++ '.' :: (d3 ++ '.' :: d4)), ?_, hdig⟩
  rw [← hip, hd]
  rfl

theorem searchAddrPort_head : ∀ (cs ip port : List Char),
    searchAddrPort cs = some (ip, port) → ∃ c t, ip = c :: t ∧ c.isDigit = true := by
  intro cs
  induction cs with
  | nil => intro ip port h; cases h
  | cons c cs ih =>
    intro ip port h
    rw [searchAddrPort] at h
    rcases hm : matchAddrPortAt (c :: cs) with _ | ⟨m1, m2⟩ <;> simp only [hm] at h
    · exact ih ip port h
    · exact matchAddrPortAt_head (c :: cs) ip port (hm.trans h)

theorem containsAddrPort_cons (c : Char) (cs : List Char) :
    containsAddrPort (c :: cs)
      = ((matchAddrPortAt (c :: cs)).isSome || containsAddrPort cs) := by
  unfold containsAddrPort
  rw [List.length_cons, List.range_succ_eq_map, List.any_cons, List.any_map]
  simp only [Function.comp_def, Nat.succ_eq_add_one, List.drop_succ_cons, List.drop_zero]

theorem searchAddrPort_eq_none_iff : ∀ cs : List Char,
    searchAddrPort cs = none ↔ containsAddrPort cs = false := by
  intro cs
  induction cs with
  | nil => simp [searchAddrPort, containsAddrPort]
  | cons c cs ih =>
    rw [searchAddrPort, containsAddrPort_cons]
    rcases hm : matchAddrPortAt (c :: cs) with _ | m <;> simp [hm, ih]

/-- Claim C1, counterexample.  The claim states that once the connection flag
is observed true within a session it is never observed false again for the
same `SrtProcessManager` instance, returning to false only via a fresh
instance.  In the concrete session below (stats artifact becomes non-empty at
tick 2, timeout 5) the flag is observed true from tick 2 on, yet after the
loop `_handle_timeout` line 98 assigns `connection_established = False` on the
very same (st.cache_resource-cached) instance, so the final state of that
instance holds the flag false again with no fresh construction. -/
theorem connection_flag_reset_counterexample :
    (handle_timeout env2 "10.0.0.1:9000" 5 false).2.map TickRecord.flagAfter
        = [false, true, true, true, true]
    ∧ (handle_timeout env2 "10.0.0.1:9000" 5 false).1.flag = false := by
  decide

/-- Claim C1, amended.  The background monitor writes only the false-to-true
transition (it never falsifies the flag), so along the rendered ticks of a
session the observed flag is monotone: once true at some tick it stays true at
every later tick of the loop.  The flag returns to false not by constructing a
fresh instance but by `_handle_timeout`'s own cleanup assignment on the same
manager state once the countdown ends. -/
theorem connection_flag_monotone_amended :
    (∀ (o : MonitorObs) (s : SessionState), s.flag = true → (monitorStep o s).flag = true)
    ∧ (∀ (env : Nat → MonitorObs) (e : String) (timeout : Nat) (f0 : Bool),
        List.Pairwise (fun a b => a.flagAfter = true → b.flagAfter = true)
          (handle_timeout env e timeout f0).2)
    ∧ (∀ (env : Nat → MonitorObs) (e : String) (timeout : Nat) (f0 : Bool),
        (handle_timeout env e timeout f0).1.flag = false) := by
  refine ⟨monitorStep_flag_true, ?_, ?_⟩
  · intro env e timeout f0
    exact runLoop_pairwise env e timeout 1 _
  · intro env e timeout f0
    rfl

/-- Witness for `connection_flag_monotone_amended`: the monitor-step clause
applied at a concrete state whose flag is already true. -/
theorem connection_flag_monotone_amended_witness :
    ({ flag := true, monitorExited := false, srtConnected := false, remaining := 3 } : SessionState).flag = true
    ∧ (monitorStep { processAlive := true, stat := StatObs.ok 0 }
        { flag := true, monitorExited := false, srtConnected := false, remaining := 3 }).flag = true :=
  ⟨rfl, connection_flag_monotone_amended.1 _ _ rfl⟩

/-- Claim C2, counterexample.  The claim states the monitor treats an
unreadable stats file as "not yet connected" and continues polling.  On the
concrete observation sequence [file missing, file has size 1] with the process
alive, the source monitor crashes at the first poll (the uncaught `os.stat`
FileNotFoundError kills the thread) and never reaches the second poll, while
the spec-modelled monitor continues and connects. -/
theorem monitor_missing_file_counterexample :
    monitor_connection_status false
        [{ processAlive := true, stat := StatObs.missing },
         { processAlive := true, stat := StatObs.ok 1 }]
      = (false, MonitorExit.crashed)
    ∧ monitor_connection_status_specModel false
        [{ processAlive := true, stat := StatObs.missing },
         { processAlive := true, stat := StatObs.ok 1 }]
      = (true, MonitorExit.connected) := by
  decide

/-- Claim C2, amended.  When the stats file is missing at a poll while the
process is alive, the uncaught `os.stat` exception terminates the monitor
thread with the flag unchanged — polling does not continue.  The monitor keeps
polling (at its fixed 1-second cadence, one observation per iteration) only
while each `os.stat` succeeds with size 0 and the process is alive, and exits
normally when the process is no longer alive. -/
theorem monitor_missing_file_amended :
    ∀ (flag : Bool) (rest : List MonitorObs) (o : StatObs),
      monitor_connection_status flag ({ processAlive := true, stat := StatObs.missing } :: rest)
          = (flag, MonitorExit.crashed)
      ∧ monitor_connection_status flag ({ processAlive := true, stat := StatObs.ok 0 } :: rest)
          = monitor_connection_status flag rest
      ∧ monitor_connection_status flag ({ processAlive := false, stat := o } :: rest)
          = (flag, MonitorExit.processExited) := by
  intro flag rest o
  exact ⟨rfl, rfl, rfl⟩

/-- Claim C3, confirmed.  In the countdown scenario — timeout 5, monitor
flipping the connection flag at tick 2 — the controller renders the remaining
time 5,4,3,2,1 across exactly 5 ticks (strictly decreasing, ending with the
remaining time at 0) and renders exactly one "connected" notification, at
tick 2, so `extract_connected_ip_port` is consulted exactly once. -/
theorem countdown_scenario (e : String) :
    (handle_timeout env2 e 5 false).2.map TickRecord.shown = [5, 4, 3, 2, 1]
    ∧ (handle_timeout env2 e 5 false).2.map TickRecord.notified
        = [none, some e, none, none, none]
    ∧ ((handle_timeout env2 e 5 false).2.filter fun r => r.notified.isSome).length = 1
    ∧ (handle_timeout env2 e 5 false).1.remaining = 0
    ∧ List.Chain' (fun a b => b < a) ((handle_timeout env2 e 5 false).2.map TickRecord.shown) := by
  refine ⟨rfl, rfl, rfl, rfl, ?_⟩
  have h1 : (handle_timeout env2 e 5 false).2.map TickRecord.shown = [5, 4, 3, 2, 1] := rfl
  rw [h1]
  norm_num

/-- Claim C4, counterexample.  The claim states that
`extract_connected_ip_port` tolerates a log that is not yet readable by
returning the sentinel string.  In the source the `open` call is unguarded, so
when the log file does not exist the method raises `FileNotFoundError` instead
of returning the sentinel. -/
theorem extract_unreadable_log_counterexample :
    extract_connected_ip_port none = Except.error PyErr.fileNotFoundError
    ∧ extract_connected_ip_port none ≠ Except.ok sentinel := by
  refine ⟨rfl, ?_⟩
  intro h
  simp [extract_connected_ip_port] at h

/-- Claim C4, amended.  On a readable log, `extract_connected_ip_port`
returns the sentinel error string exactly when the content contains no
address:port pattern, and otherwise returns the first (leftmost) match
formatted as "ip:port", which is never equal to the sentinel; as a pure
function of the log content it trivially returns the same result on repeated
calls over an unchanged log.  On an unreadable (not yet created) log it does
not return the sentinel: the uncaught `open` failure propagates. -/
theorem extract_connected_ip_port_amended : ∀ content : String,
    (containsAddrPort content.data = false →
        extract_connected_ip_port (some content) = Except.ok sentinel)
    ∧ (containsAddrPort content.data = true →
        ∃ ip port, searchAddrPort content.data = some (ip, port)
          ∧ extract_connected_ip_port (some content) = Except.ok (String.mk (ip ++ ':' :: port))
          ∧ String.mk (ip ++ ':' :: port) ≠ sentinel)
    ∧ extract_connected_ip_port none = Except.error PyErr.fileNotFoundError := by
  intro content
  refine ⟨?_, ?_, rfl⟩
  · intro hno
    have hs : searchAddrPort content.data = none := (searchAddrPort_eq_none_iff _).mpr hno
    simp [extract_connected_ip_port, hs]
  · intro hyes
    rcases hsearch : searchAddrPort content.data with _ | ⟨ip, port⟩
    · rw [(searchAddrPort_eq_none_iff _).mp hsearch] at hyes
      cases hyes
    · refine ⟨ip, port, rfl, ?_, ?_⟩
      · simp [extract_connected_ip_port, hsearch]
      · obtain ⟨c, t, hipc, hdig⟩ := searchAddrPort_head _ _ _ hsearch
        subst hipc
        intro heq
        have hdata : (c :: t) ++ ':' :: port = sentinel.data := congrArg String.data heq
        have hc : c = 'e' := by
          have h0 : ((c :: t) ++ ':' :: port).headI = sentinel.data.headI := by rw [hdata]
          exact h0.trans rfl
        rw [hc] at hdig
        exact absurd hdig (by decide)

/-- Witness for `extract_connected_ip_port_amended`: a concrete log content
containing one address:port token, on which the hypotheses are discharged by
evaluation. -/
theorem extract_connected_ip_port_amended_witness :
    containsAddrPort ("srt 10.0.0.1:9000 ok").data = true
    ∧ ∃ ip port, searchAddrPort ("srt 10.0.0.1:9000 ok").data = some (ip, port)
        ∧ extract_connected_ip_port (some "srt 10.0.0.1:9000 ok")
            = Except.ok (String.mk (ip ++ ':' :: port))
        ∧ String.mk (ip ++ ':' :: port) ≠ sentinel :=
  ⟨by decide, (extract_connected_ip_port_amended "srt 10.0.0.1:9000 ok").2.1 (by decide)⟩

/-- Claim C5, confirmed.  For any valid session configuration (port and
timeout within the sidebar bounds, well-formed IPv4 address), starting a
process on a freshly constructed `SrtProcessManager` spawns exactly one
external process, stores its handle, and the session begins with
`connection_established = false` (set by `__init__` and left untouched by
`start_process`). -/
theorem start_process_fresh_session (cfg : SessionConfig) (h : Popen)
    (hport : 9000 ≤ cfg.port ∧ cfg.port ≤ 9100)
    (htime : 30 ≤ cfg.timeout ∧ cfg.timeout ≤ 600)
    (hip : validate_ipv4_address cfg.ip = true) :
    SrtProcessManager.init.connection_established = false
    ∧ (SrtProcessManager.init.start_process cfg h).2.length = 1
    ∧ (SrtProcessManager.init.start_process cfg h).1.process = some h
    ∧ (SrtProcessManager.init.start_process cfg h).1.connection_established = false :=
  ⟨rfl, rfl, rfl, rfl⟩

/-- Witness for `start_process_fresh_session` at a concrete valid
configuration. -/
theorem start_process_fresh_session_witness :
    ((9000 : Nat) ≤ 9000 ∧ (9000 : Nat) ≤ 9100)
    ∧ ((30 : Nat) ≤ 60 ∧ (60 : Nat) ≤ 600)
    ∧ validate_ipv4_address "192.168.1.7" = true
    ∧ (SrtProcessManager.init.start_process
        { version := "1.5.3", mode := "caller", port := 9000, timeout := 60, ip := "192.168.1.7" }
        { pollResult := none }).2.length = 1
    ∧ (SrtProcessManager.init.start_process
        { version := "1.5.3", mode := "caller", port := 9000, timeout := 60, ip := "192.168.1.7" }
        { pollResult := none }).1.connection_established = false :=
  ⟨⟨by decide, by decide⟩, ⟨by decide, by decide⟩, by decide,
    (start_process_fresh_session
      { version := "1.5.3", mode := "caller", port := 9000, timeout := 60, ip := "192.168.1.7" }
      { pollResult := none }
      ⟨by decide, by decide⟩ ⟨by decide, by decide⟩ (by decide)).2.1,
    (start_process_fresh_session
      { version := "1.5.3", mode := "caller", port := 9000, timeout := 60, ip := "192.168.1.7" }
      { pollResult := none }
      ⟨by decide, by decide⟩ ⟨by decide, by decide⟩ (by decide)).2.2.2⟩

/-- Claim C6, confirmed.  `check_for_valid_mpeg_ts` returns exactly one of
true, false or None: None exactly on the two exception paths (the probing
invocation failing, or its JSON output failing to parse), never None once a
document was parsed, `some true` exactly when the reported format name is
"mpegts", and `some false` exactly when a document was parsed but the format
name is not "mpegts" (including a missing format object or name). -/
theorem check_mpeg_ts_trichotomy :
    check_for_valid_mpeg_ts ProbeOutcome.calledProcessError = none
    ∧ check_for_valid_mpeg_ts ProbeOutcome.jsonDecodeError = none
    ∧ (∀ j : FfprobeJson, check_for_valid_mpeg_ts (ProbeOutcome.parsed j) ≠ none)
    ∧ (∀ j : FfprobeJson,
        (check_for_valid_mpeg_ts (ProbeOutcome.parsed j) = some true
          ↔ j.formatName = some "mpegts"))
    ∧ (∀ j : FfprobeJson,
        (check_for_valid_mpeg_ts (ProbeOutcome.parsed j) = some false
          ↔ j.formatName ≠ some "mpegts")) := by
  have hcases : ∀ j : FfprobeJson,
      check_for_valid_mpeg_ts (ProbeOutcome.parsed j)
        = some (decide (j.formatName = some "mpegts")) := by
    intro j
    obtain ⟨fmt⟩ := j
    rcases fmt with _ | ⟨fn⟩
    · simp [check_for_valid_mpeg_ts, FfprobeJson.formatName]
    · rcases fn with _ | n
      · simp [check_for_valid_mpeg_ts, FfprobeJson.formatName]
      · by_cases hn : n = "mpegts" <;>
          simp [check_for_valid_mpeg_ts, FfprobeJson.formatName, hn]
  refine ⟨rfl, rfl, ?_, ?_, ?_⟩
  · intro j
    rw [hcases j]
    simp
  · intro j
    rw [hcases j]
    constructor
    · intro hsome
      have := Option.some.inj hsome
      exact of_decide_eq_true this
    · intro hfmt
      simp [hfmt]
  · intro j
    rw [hcases j]
    constructor
    · intro hsome hfmt
      have := Option.some.inj hsome
      rw [hfmt] at this
      simp at this
    · intro hfmt
      simp [hfmt]

theorem runTcEvents_append (rules : String → Nat) (a b : List TcEvent) :
    runTcEvents rules (a ++ b) = runTcEvents (runTcEvents rules a) b :=
  List.foldl_append _ _ _ _

theorem runTc_session (rules : String → Nat) (intf : String) (netem : Bool) (d : Nat) :
    runTcEvents rules (start_srt_session_tc intf netem d) intf
      = if netem then 1 else 0 := by
  cases netem <;> simp [runTcEvents, start_srt_session_tc, applyTcEvent]

/-- Claim C7, confirmed.  `_start_srt_session` always issues a clear for the
interface before any add, so after any nonempty sequence of supervisor-driven
sessions — in particular two applies in succession with no intervening manual
clear — the number of concurrently active delay rules on the interface is at
most one, even under the spec's own model in which the raw traffic-control
primitive stacks duplicate rules. -/
theorem at_most_one_netem_rule :
    (∀ (intf : String) (d : Nat),
        start_srt_session_tc intf true d = [TcEvent.clear intf, TcEvent.add intf d])
    ∧ ∀ (rules : String → Nat) (intf : String) (sessions : List (Bool × Nat)),
        sessions ≠ [] →
        runTcEvents rules
          ((sessions.map fun p => start_srt_session_tc intf p.1 p.2).flatten) intf ≤ 1 := by
  constructor
  · intro intf d
    rfl
  · intro rules intf sessions
    induction sessions generalizing rules with
    | nil => intro hne; exact absurd rfl hne
    | cons s rest ih =>
      intro _
      rcases rest with _ | ⟨r, rs⟩
      · rw [List.map_cons, List.map_nil, List.flatten_cons, List.flatten_nil,
          List.append_nil, runTc_session]
        cases s.1 <;> simp
      · rw [List.map_cons, List.flatten_cons, runTcEvents_append]
        exact ih _ (by simp)

/-- Witness for `at_most_one_netem_rule`: two consecutive sessions that both
apply emulation to the same interface, starting from no active rules. -/
theorem at_most_one_netem_rule_witness :
    ([((true : Bool), (10 : Nat)), (true, 20)] ≠ ([] : List (Bool × Nat)))
    ∧ runTcEvents (fun _ => 0)
        (([((true : Bool), (10 : Nat)), (true, 20)].map fun p =>
            start_srt_session_tc "eth0" p.1 p.2).flatten) "eth0" ≤ 1 :=
  ⟨by decide, at_most_one_netem_rule.2 (fun _ => 0) "eth0" _ (by decide)⟩

/-- Claim C8, confirmed.  `add_network_emulation` and
`clear_network_emulation` always return normally: whatever the outcome of the
external traffic-control invocation — including the anticipated failure the
`except` clause logs and swallows — no exception reaches the caller, and in
particular clearing an interface with no active rule (the `tc` call merely
completing with a nonzero exit code, which `subprocess.run` without
`check=True` never raises on) returns without even a logged error. -/
theorem netem_calls_never_raise :
    (∀ (intf : String) (d : Nat) (call : TcCall),
        ∃ l, add_network_emulation intf d call = Except.ok l)
    ∧ (∀ (intf : String) (call : TcCall),
        ∃ l, clear_network_emulation intf call = Except.ok l)
    ∧ (∀ (intf : String) (code : Int),
        clear_network_emulation intf (TcCall.completes code) = Except.ok none) := by
  refine ⟨?_, ?_, ?_⟩
  · intro intf d call
    cases call <;> exact ⟨_, rfl⟩
  · intro intf call
    cases call <;> exact ⟨_, rfl⟩
  · intro intf code
    rfl

/-- Claim C9, confirmed (spec-modelled validator).  Any listener IP that fails
`validate_ipv4_address` — such as "999.1.1.1" or "abc" — disables the Submit
button, so the button can never report a click and `_start_srt_session` (and
with it any process launch) is unreachable; the inline error is what the
caller sees instead. -/
theorem malformed_ip_blocks_launch (prev clicked : Bool) (ip : String)
    (hbad : validate_ipv4_address ip = false) :
    (caller_ip_gate prev ip).submit_disabled = true
    ∧ srt_submitted (caller_ip_gate prev ip) clicked = false := by
  have hd : (caller_ip_gate prev ip).submit_disabled = true := by
    unfold caller_ip_gate
    by_cases he : ip = ""
    · simp [he]
    · simp [he, hbad]
  exact ⟨hd, by simp [srt_submitted, hd]⟩

/-- Witness for `malformed_ip_blocks_launch` at the spec's two example
malformed addresses. -/
theorem malformed_ip_blocks_launch_witness :
    validate_ipv4_address "999.1.1.1" = false
    ∧ validate_ipv4_address "abc" = false
    ∧ (caller_ip_gate false "999.1.1.1").submit_disabled = true
    ∧ srt_submitted (caller_ip_gate false "abc") true = false :=
  ⟨by decide, by decide,
    (malformed_ip_blocks_launch false true "999.1.1.1" (by decide)).1,
    (malformed_ip_blocks_launch false true "abc" (by decide)).2⟩

/-- Claim C10, confirmed.  On a freshly constructed manager (no process ever
launched) every lifecycle query is total and exception-free:
`check_if_running` returns `False` rather than raising, and `stop_process`
sends no signal; the same no-op guarantee holds once the process has exited,
and neither method can raise on any manager state. -/
theorem fresh_manager_lifecycle_safe :
    check_if_running { process := none } = Except.ok false
    ∧ stop_process { process := none } = Except.ok StopEffect.noop
    ∧ (∀ code : Int,
        stop_process { process := some { pollResult := some code } }
          = Except.ok StopEffect.noop)
    ∧ (∀ m : ProcessManager, ∃ b, check_if_running m = Except.ok b)
    ∧ (∀ m : ProcessManager, ∃ eff, stop_process m = Except.ok eff) := by
  refine ⟨rfl, rfl, fun code => rfl, ?_, ?_⟩
  · intro m
    rcases m with ⟨_ | p⟩
    · exact ⟨false, rfl⟩
    · exact ⟨p.pollResult.isNone, rfl⟩
  · intro m
    rcases m with ⟨_ | ⟨_ | c⟩⟩
    · exact ⟨StopEffect.noop, rfl⟩
    · exact ⟨StopEffect.terminated, rfl⟩
    · exact ⟨StopEffect.noop, rfl⟩
